import Mathlib

/-!
Verification of the diff-comparison pipeline (`simple_analysis.py`,
`summary.py`, `visualization.py`).

The pipeline mines commits, computes per-file diffs with the Myers and the
Histogram algorithms, compares the two diff texts, classifies each file by
type and aggregates the records.  We give a shallow embedding of the
relevant functions: strings are Lean `String`s (Python code points become
`Char`s), the external `git diff` invocation is an oracle parameter
returning `Option String` (`none` models a non-zero exit status, i.e. the
`subprocess.CalledProcessError` branch), and Python's float division used
for the rates is modelled over `ℚ` with `Option` marking the
`ZeroDivisionError` case.
-/

/-- Python truthiness of an optional string: `None` and `""` are falsy. -/
def pyTruthy : Option String → Bool
  | none => false
  | some s => !(s.isEmpty)

/-- Python expression `a or b` on optional strings: `a` when truthy, else `b`. -/
def pyOr (a b : Option String) : Option String :=
  if pyTruthy a then a else b

/-- Check that the first character list starts the second one. -/
def startsWithCL : List Char → List Char → Bool
  | [], _ => true
  | _ :: _, [] => false
  | a :: as, b :: bs => a == b && startsWithCL as bs

/-- Python substring test `needle in haystack` on character lists. -/
def hasSub (needle : List Char) : List Char → Bool
  | [] => needle.isEmpty
  | c :: rest => startsWithCL needle (c :: rest) || hasSub needle rest

/-- The part of a POSIX path after the last `/` (the basename). -/
def basenameChars (p : List Char) : List Char :=
  ((p.reverse).takeWhile (fun c => c != '/')).reverse

/-- Behaviour of `os.path.splitext` restricted to a basename: split at the last dot,
provided some character of the basename before that dot is not itself a
dot (CPython skips leading dots, so `.bashrc` has no extension). -/
def splitLastDot (b : List Char) : List Char × List Char :=
  let afterRev := b.reverse.takeWhile (fun c => c != '.')
  let rest := b.reverse.dropWhile (fun c => c != '.')
  match rest with
  | [] => (b, [])
  | _ :: beforeRev =>
    if beforeRev.any (fun c => c != '.') then
      (beforeRev.reverse, '.' :: afterRev.reverse)
    else (b, [])

/-- Embedding of `os.path.splitext(p)[1]` on POSIX: the extension of the basename. -/
def splitext_ext (p : List Char) : List Char :=
  (splitLastDot (basenameChars p)).2

/-- Embedding of `os.path.splitext(p)[1].lower()`. -/
def extLower (p : List Char) : List Char :=
  (splitext_ext p).map Char.toLower

def sourceExts : List (List Char) :=
  [".py".data, ".js".data, ".c".data, ".cpp".data, ".java".data,
   ".go".data, ".rs".data, ".php".data]

def docExts : List (List Char) :=
  [".md".data, ".txt".data, ".rst".data, ".adoc".data]

def configExts : List (List Char) :=
  [".json".data, ".yml".data, ".yaml".data, ".xml".data, ".toml".data,
   ".ini".data, ".cfg".data]

def webExts : List (List Char) :=
  [".html".data, ".css".data, ".scss".data]

/-- Function `classify_file_type` of `simple_analysis.py` (lines 45-63).  The
argument is `Option String` because Python callers may pass `None`; both
`None` and `""` fail the initial `if not file_path` truthiness test. -/
def classify_file_type (file_path : Option String) : String :=
  match file_path with
  | none => "Unknown"
  | some fp =>
    if fp = "" then "Unknown"
    else
      let ext := extLower fp.data
      if ext ∈ sourceExts then "Source"
      else if ext ∈ docExts then "Documentation"
      else if ext ∈ configExts then "Config"
      else if ext ∈ webExts then "Web"
      else if ext ∈ ["test.py".data, "_test.py".data] ∨ hasSub "test".data fp.data then "Test"
      else "Other"

example : classify_file_type (some "src/main.py") = "Source" := by decide
example : classify_file_type (some "README.md") = "Documentation" := by decide
example : classify_file_type (some "test_foo.py") = "Source" := by decide
example : classify_file_type (some "tests/data.dat") = "Test" := by decide
example : classify_file_type (some ".bashrc") = "Other" := by decide
example : classify_file_type (some "") = "Unknown" := by decide
example : classify_file_type none = "Unknown" := by decide

/-! ### The diff invoker and the comparison engine (`simple_analysis.py`) -/

/-- Oracle modelling the external `git diff` subprocess: arguments are
repo directory, parent revision, child revision, path and algorithm; the
result is the decoded output on a zero exit status and `none` on
`subprocess.CalledProcessError` (non-zero exit). -/
def GitTool : Type := String → String → String → String → String → Option String

/-- Function `get_diff` of `simple_analysis.py` (lines 19-43).  The second
component counts the invocations of the external tool (0 on the
short-circuit `if not parent or not path: return None`, 1 otherwise). -/
def get_diff (tool : GitTool) (repo_dir : String) (parent : Option String)
    (child : String) (path : Option String) (algorithm : String) :
    Option String × Nat :=
  if pyTruthy parent = false ∨ pyTruthy path = false then (none, 0)
  else
    match tool repo_dir (parent.getD "") child (path.getD "") algorithm with
    | some out => (some out, 1)
    | none => (none, 1)

/-- A modified file as yielded by pydriller: nullable old and new path. -/
structure ModifiedFile where
  old_path : Option String
  new_path : Option String
deriving DecidableEq, Repr

/-- A commit as yielded by pydriller's `traverse_commits`. -/
structure Commit where
  hash : String
  parents : List String
  msg : String
  modified_files : List ModifiedFile
  project_path : String
deriving DecidableEq, Repr

/-- One row appended to `rows` in `main` (lines 105-117), i.e. one
ComparisonRecord of the dataset. -/
structure Row where
  repository : String
  old_file_path : Option String
  new_file_path : Option String
  commit_sha : String
  parent_commit_sha : String
  commit_message : String
  file_type : String
  file_extension : String
  diff_myers : String
  diff_histogram : String
  discrepancy : String
deriving DecidableEq, Repr, Inhabited

/-- Body of the inner `for file in commit.modified_files` loop of `main`
(lines 90-117): `none` when the file is skipped (`continue`), otherwise
the appended row. -/
def process_file (tool : GitTool) (repo_name : String) (repo_dir : String)
    (commit : Commit) (parent : String) (file : ModifiedFile) : Option Row :=
  let path := pyOr file.new_path file.old_path
  if pyTruthy path = false then none
  else
    let diff_myers := (get_diff tool repo_dir (some parent) commit.hash path "myers").1
    let diff_histogram := (get_diff tool repo_dir (some parent) commit.hash path "histogram").1
    match diff_myers, diff_histogram with
    | some dm, some dh =>
      some
        { repository := repo_name
          old_file_path := file.old_path
          new_file_path := file.new_path
          commit_sha := commit.hash
          parent_commit_sha := parent
          commit_message :=
            if commit.msg.length > 100 then commit.msg.take 100 ++ "..." else commit.msg
          file_type := classify_file_type path
          file_extension :=
            match path with
            | some p => if p.isEmpty then "" else String.mk (extLower p.data)
            | none => ""
          diff_myers := dm
          diff_histogram := dh
          discrepancy := if dm ≠ dh then "Yes" else "No" }
    | _, _ => none

/-- Body of the `for commit in ... commits` loop of `main` (lines 81-117):
the rows contributed by one commit.  Mirrors
`parent = parents[0] if parents else None` followed by
`if not parent: continue`. -/
def process_commit (tool : GitTool) (repo_name : String) (commit : Commit) :
    List Row :=
  match commit.parents.head? with
  | none => []
  | some parent =>
    if parent.isEmpty then []
    else
      commit.modified_files.filterMap
        (process_file tool repo_name commit.project_path commit parent)

/-- Rows contributed by one repository in `main` (lines 75-117), after the
cap `commits = commits[:1000]`. -/
def process_repo (tool : GitTool) (repo_name : String) (commits : List Commit) :
    List Row :=
  ((commits.take 1000).map (process_commit tool repo_name)).flatten

/-! ### Aggregation and reporting (`simple_analysis.py` lines 124-136,
`summary.py`, `visualization.py`) -/

/-- Overall discrepancy rate of `display_summary` (`summary.py` lines
25-27): `total_discrepancies / total_files * 100` with NO guard on the
denominator; `none` models the `ZeroDivisionError` Python raises when
`len(df) = 0`. -/
def summary_overall_rate (rows : List Row) : Option ℚ :=
  let total_files := rows.length
  let total_discrepancies := (rows.filter (fun r => r.discrepancy == "Yes")).length
  if total_files = 0 then none
  else some ((total_discrepancies : ℚ) / (total_files : ℚ) * 100)

/-- Agreement rate printed by `main` (`simple_analysis.py` line 129):
`len(df[df.discrepancy == "No"]) / len(df) * 100`, again with no guard on
the denominator; `none` models the exception raised on an empty dataset. -/
def analysis_agreement_rate (rows : List Row) : Option ℚ :=
  let total := rows.length
  let agreements := (rows.filter (fun r => r.discrepancy == "No")).length
  if total = 0 then none
  else some ((agreements : ℚ) / (total : ℚ) * 100)

/-- Guarded rate used throughout `visualization.py` (lines 43-44, 67, 97,
133-134): `(d / t * 100) if t > 0 else 0`. -/
def viz_rate (disagreements total : ℕ) : ℚ :=
  if total > 0 then (disagreements : ℚ) / (total : ℚ) * 100 else 0

/-- Guarded per-file-type rate of `display_summary` (`summary.py` line 57):
`(discrepancies / total * 100) if total > 0 else 0`. -/
def summary_filetype_rate (discrepancies total : ℕ) : ℚ :=
  if total > 0 then (discrepancies : ℚ) / (total : ℚ) * 100 else 0

/-- Control flow of `display_summary` (`summary.py` lines 9-80) up to the
first rate computation.  The argument is `none` when `dataset.csv` is
absent (`pd.read_csv` raises `FileNotFoundError`, which the function
catches, printing a user-visible message and returning normally), and
`some rows` when the file parses to `rows`.  On zero rows line 27 divides
by zero and no handler catches the `ZeroDivisionError`, modelled by
`Except.error`; otherwise the summary is printed. -/
def display_summary (dataset : Option (List Row)) : Except String String :=
  match dataset with
  | none => Except.ok "Error: dataset.csv not found"
  | some rows =>
    match summary_overall_rate rows with
    | none => Except.error "ZeroDivisionError"
    | some _ => Except.ok "DIFF ALGORITHM ANALYSIS SUMMARY"

/-- Number of rows of a given file type: `len(df[df.file_type == ft])`. -/
def countType (rows : List Row) (ft : String) : ℕ :=
  (rows.filter (fun r => r.file_type == ft)).length

/-- First-occurrence deduplication, the order `pd.unique` /
`df['file_type'].unique()` yields values in. -/
def pdUnique : List String → List String
  | [] => []
  | x :: xs => x :: (pdUnique xs).filter (fun y => y != x)

/-- File types included in the per-file-type chart panel of
`create_final_clear_visualization` (`visualization.py` lines 92-104): the
loop runs over `df['file_type'].unique()` and appends a stats entry only
`if total >= 10`. -/
def chart_file_types (rows : List Row) : List String :=
  (pdUnique (rows.map (fun r => r.file_type))).filter
    (fun ft => decide (10 ≤ countType rows ft))

/-- File types iterated by the console breakdown of `display_summary`
(`summary.py` lines 50-58): the index of `df.groupby('file_type').size()`,
i.e. the distinct file types present, in sorted order, with no minimum
sample size. -/
def summary_file_types (rows : List Row) : List String :=
  List.mergeSort (pdUnique (rows.map (fun r => r.file_type)))
    (fun a b => decide (a ≤ b))

/-- The repository loop of `main` (`simple_analysis.py` lines 68-121): the
full dataset.  Each configured repository is a name paired with `none`
when its filesystem path does not exist (`os.path.exists` fails, the
repository is skipped) or `some commits` when traversal yields `commits`. -/
def build_dataset (tool : GitTool) (repos : List (String × Option (List Commit))) :
    List Row :=
  (repos.map (fun rp =>
    match rp.2 with
    | none => []
    | some commits => process_repo tool rp.1 commits)).flatten

/-! ### Helper lemmas -/

theorem pdUnique_mem {y : String} : ∀ {l : List String}, y ∈ pdUnique l ↔ y ∈ l := by
  intro l
  induction l with
  | nil => simp [pdUnique]
  | cons x xs ih =>
    simp only [pdUnique, List.mem_cons, List.mem_filter, bne_iff_ne, ih]
    by_cases hx : y = x <;> simp [hx]

theorem countType_pos_iff {rows : List Row} {ft : String} :
    1 ≤ countType rows ft ↔ ft ∈ rows.map (fun r => r.file_type) := by
  have : countType rows ft = rows.countP (fun r => r.file_type == ft) :=
    (List.countP_eq_length_filter _ _).symm
  rw [this, Nat.one_le_iff_ne_zero, ← Nat.pos_iff_ne_zero, List.countP_pos_iff]
  simp [List.mem_map, beq_iff_eq]

theorem mem_process_commit {tool : GitTool} {rn : String} {c : Commit} {row : Row}
    (h : row ∈ process_commit tool rn c) :
    ∃ par f, c.parents.head? = some par ∧ ¬ par.isEmpty ∧ f ∈ c.modified_files ∧
      process_file tool rn c.project_path c par f = some row := by
  unfold process_commit at h
  split at h
  · simp at h
  · rename_i par hp
    split at h
    · simp at h
    · rename_i he
      rcases List.mem_filterMap.mp h with ⟨f, hf, hpf⟩
      exact ⟨par, f, hp, by simpa using he, hf, hpf⟩

theorem mem_process_repo {tool : GitTool} {rn : String} {commits : List Commit}
    {row : Row} (h : row ∈ process_repo tool rn commits) :
    ∃ c ∈ commits.take 1000, row ∈ process_commit tool rn c := by
  unfold process_repo at h
  rcases List.mem_flatten.mp h with ⟨l, hl, hrow⟩
  rcases List.mem_map.mp hl with ⟨c, hc, rfl⟩
  exact ⟨c, hc, hrow⟩

theorem mem_build_dataset {tool : GitTool} {repos : List (String × Option (List Commit))}
    {row : Row} (h : row ∈ build_dataset tool repos) :
    ∃ rn commits, (rn, some commits) ∈ repos ∧ row ∈ process_repo tool rn commits := by
  unfold build_dataset at h
  rcases List.mem_flatten.mp h with ⟨l, hl, hrow⟩
  rcases List.mem_map.mp hl with ⟨⟨rn, commits?⟩, hc, rfl⟩
  rcases commits? with _ | commits
  · simp at hrow
  · exact ⟨rn, commits, hc, hrow⟩

theorem process_file_eq_some {tool : GitTool} {rn rd par : String} {c : Commit}
    {f : ModifiedFile} {row : Row}
    (h : process_file tool rn rd c par f = some row) :
    row.discrepancy = (if row.diff_myers ≠ row.diff_histogram then "Yes" else "No") ∧
    row.commit_message =
      (if c.msg.length > 100 then c.msg.take 100 ++ "..." else c.msg) := by
  simp only [process_file] at h
  by_cases hp : pyTruthy (pyOr f.new_path f.old_path) = false
  · rw [if_pos hp] at h; exact absurd h (by simp)
  · rw [if_neg hp] at h
    rcases hdm : (get_diff tool rd (some par) c.hash (pyOr f.new_path f.old_path) "myers").1
      with _ | dm
    · rw [hdm] at h; simp at h
    · rcases hdh : (get_diff tool rd (some par) c.hash (pyOr f.new_path f.old_path) "histogram").1
        with _ | dh
      · rw [hdm, hdh] at h; simp at h
      · rw [hdm, hdh] at h
        injection h with h
        subst h
        exact ⟨rfl, rfl⟩

theorem splitext_ext_shape (p : List Char) :
    splitext_ext p = [] ∨ ∃ t, splitext_ext p = '.' :: t := by
  unfold splitext_ext splitLastDot
  rcases hr : (basenameChars p).reverse.dropWhile (fun c => c != '.') with _ | ⟨c, rest⟩ <;>
    simp only [hr]
  · left; trivial
  · by_cases ha : rest.any (fun c => c != '.')
    · right; rw [if_pos ha]; exact ⟨_, rfl⟩
    · left; rw [if_neg ha]

theorem extLower_shape (p : List Char) :
    extLower p = [] ∨ ∃ t, extLower p = '.' :: t := by
  rcases splitext_ext_shape p with h | ⟨t, h⟩
  · left; simp [extLower, h]
  · right
    refine ⟨t.map Char.toLower, ?_⟩
    simp only [extLower, h, List.map_cons]
    rw [show '.'.toLower = '.' from by decide]

/-! ### Claim theorems: classification -/

/-- C4: for every path, `classify_file_type` returns exactly one category
from the fixed set {Source, Documentation, Config, Web, Test, Other,
Unknown}, never null and never an exception (it is a total Lean function);
a null or empty path returns "Unknown". -/
theorem classify_file_type_total (fp : Option String) :
    classify_file_type fp ∈
      ["Source", "Documentation", "Config", "Web", "Test", "Other", "Unknown"] ∧
    classify_file_type none = "Unknown" ∧ classify_file_type (some "") = "Unknown" := by
  refine ⟨?_, rfl, rfl⟩
  rcases fp with _ | fp
  · simp [classify_file_type]
  · simp only [classify_file_type]
    split_ifs <;> simp

/-- C5: every path whose lowercased extension is one of the recognized
source-code extensions classifies as "Source" — the extension checks run
before the path-substring test check, so the Test branch is unreachable
for such paths, whether or not "test" occurs in them. -/
theorem classify_source_ext_wins (fp : String)
    (h : extLower fp.data ∈ sourceExts) :
    classify_file_type (some fp) = "Source" := by
  have hne : fp ≠ "" := by
    intro he; subst he; revert h; decide
  simp only [classify_file_type]
  rw [if_neg hne, if_pos h]

/-- Witness for C5 at the typical test file name `test_foo.py`, which
contains "test" yet classifies as "Source". -/
theorem classify_source_ext_wins_witness :
    extLower "test_foo.py".data ∈ sourceExts ∧
      classify_file_type (some "test_foo.py") = "Source" :=
  ⟨by decide, classify_source_ext_wins "test_foo.py" (by decide)⟩

/-- C10: the Test branch of `classify_file_type` is reachable — every path
containing the substring "test" whose lowercased extension is in none of
the source, documentation, config or web extension sets classifies as
"Test" — and the disjunct testing the extension against
`['test.py', '_test.py']` can never be true, because extensions produced
by `os.path.splitext` are empty or begin with a dot. -/
theorem classify_test_branch :
    (∀ fp : String, hasSub "test".data fp.data = true →
      extLower fp.data ∉ sourceExts → extLower fp.data ∉ docExts →
      extLower fp.data ∉ configExts → extLower fp.data ∉ webExts →
      classify_file_type (some fp) = "Test") ∧
    (∀ p : List Char, extLower p ∉ ["test.py".data, "_test.py".data]) := by
  constructor
  · intro fp hsub h1 h2 h3 h4
    have hne : fp ≠ "" := by
      intro he; subst he; revert hsub; decide
    simp only [classify_file_type]
    rw [if_neg hne, if_neg h1, if_neg h2, if_neg h3, if_neg h4,
      if_pos (Or.inr hsub)]
  · intro p hmem
    rcases extLower_shape p with h | ⟨t, h⟩ <;> rw [h] at hmem
    · revert hmem; decide
    · simp only [List.mem_cons, List.not_mem_nil, or_false] at hmem
      rcases hmem with h1 | h1 <;>
        (injection h1 with hc _; exact absurd hc (by decide))

/-- Witness for C10 at `tests/data.dat`: contains "test", extension `.dat`
matches no extension set, and the classification is "Test". -/
theorem classify_test_branch_witness :
    hasSub "test".data "tests/data.dat".data = true ∧
      classify_file_type (some "tests/data.dat") = "Test" :=
  ⟨by decide, classify_test_branch.1 "tests/data.dat" (by decide) (by decide)
      (by decide) (by decide) (by decide)⟩

/-! ### Claim theorems: the diff invoker and the engine -/

/-- C7: `get_diff` returns null with zero tool invocations whenever the
parent revision or the path is missing (falsy); it returns null after one
invocation when the tool exits with a non-zero status; and in all other
outcomes it returns the decoded diff text after one invocation. -/
theorem get_diff_contract (tool : GitTool) (rd ch algo : String)
    (par pa : Option String) :
    (pyTruthy par = false ∨ pyTruthy pa = false →
      get_diff tool rd par ch pa algo = (none, 0)) ∧
    (pyTruthy par = true → pyTruthy pa = true →
      tool rd (par.getD "") ch (pa.getD "") algo = none →
      get_diff tool rd par ch pa algo = (none, 1)) ∧
    (∀ t : String, pyTruthy par = true → pyTruthy pa = true →
      tool rd (par.getD "") ch (pa.getD "") algo = some t →
      get_diff tool rd par ch pa algo = (some t, 1)) := by
  refine ⟨fun h => ?_, fun h1 h2 h3 => ?_, fun t h1 h2 h3 => ?_⟩
  · simp only [get_diff]; rw [if_pos h]
  · simp only [get_diff]; rw [if_neg (by simp [h1, h2]), h3]
  · simp only [get_diff]; rw [if_neg (by simp [h1, h2]), h3]

/-- Constant diff oracle: every invocation succeeds with the same text. -/
def toolConst : GitTool := fun _ _ _ _ _ => some "+added line"

/-- Diff oracle that fails (non-zero exit) exactly for the histogram
algorithm. -/
def toolFailHist : GitTool :=
  fun _ _ _ _ algo => if algo = "histogram" then none else some "+added line"

def fileA : ModifiedFile := { old_path := none, new_path := some "src/main.py" }

def fileNone : ModifiedFile := { old_path := none, new_path := none }

def commitA : Commit :=
  { hash := "c1", parents := ["p1"], msg := "add feature",
    modified_files := [fileA], project_path := "/repo" }

def commitRoot : Commit :=
  { hash := "c0", parents := [], msg := "root commit",
    modified_files := [fileA], project_path := "/repo" }

def rowA : Row := (process_repo toolConst "fastapi" [commitA]).headD default

/-- Witness for C7: short-circuit on a missing parent, null on tool
failure, decoded text on success. -/
theorem get_diff_contract_witness :
    get_diff toolConst "/repo" none "c1" (some "src/main.py") "myers" = (none, 0) ∧
    get_diff toolFailHist "/repo" (some "p1") "c1" (some "src/main.py") "histogram" = (none, 1) ∧
    get_diff toolConst "/repo" (some "p1") "c1" (some "src/main.py") "myers" =
      (some "+added line", 1) :=
  ⟨(get_diff_contract toolConst "/repo" "c1" "myers" none (some "src/main.py")).1
      (Or.inl (by decide)),
   (get_diff_contract toolFailHist "/repo" "c1" "histogram" (some "p1")
      (some "src/main.py")).2.1 (by decide) (by decide) (by decide),
   (get_diff_contract toolConst "/repo" "c1" "myers" (some "p1")
      (some "src/main.py")).2.2 "+added line" (by decide) (by decide) (by decide)⟩

/-- C1: for every record of the dataset, the discrepancy field is "Yes"
exactly when the stored Myers diff text and Histogram diff text differ as
exact strings, and "No" exactly when they are equal. -/
theorem discrepancy_consistency (tool : GitTool)
    (repos : List (String × Option (List Commit))) (row : Row)
    (h : row ∈ build_dataset tool repos) :
    (row.discrepancy = "Yes" ↔ row.diff_myers ≠ row.diff_histogram) ∧
    (row.discrepancy = "No" ↔ row.diff_myers = row.diff_histogram) := by
  rcases mem_build_dataset h with ⟨rn, commits, _, hrepo⟩
  rcases mem_process_repo hrepo with ⟨c, _, hcommit⟩
  rcases mem_process_commit hcommit with ⟨par, f, _, _, _, hpf⟩
  have hd := (process_file_eq_some hpf).1
  rw [hd]
  by_cases he : row.diff_myers = row.diff_histogram <;> simp [he]

/-- Witness for C1: one commit, one file, both algorithms agree, and the
emitted record has `discrepancy = "No"`. -/
theorem discrepancy_consistency_witness :
    rowA ∈ build_dataset toolConst [("fastapi", some [commitA])] ∧
      (rowA.discrepancy = "No" ↔ rowA.diff_myers = rowA.diff_histogram) :=
  ⟨by decide,
   (discrepancy_consistency toolConst [("fastapi", some [commitA])] rowA (by decide)).2⟩

/-- C3: a modified file with both paths null yields no record; a commit
with no parent yields no record; a file for which either algorithm's diff
invocation returns null yields no record. -/
theorem skip_correctness (tool : GitTool) (rn rd par : String) (c : Commit)
    (f : ModifiedFile) :
    (f.old_path = none → f.new_path = none →
      process_file tool rn rd c par f = none) ∧
    (c.parents = [] → process_commit tool rn c = []) ∧
    ((get_diff tool rd (some par) c.hash (pyOr f.new_path f.old_path) "myers").1 = none ∨
     (get_diff tool rd (some par) c.hash (pyOr f.new_path f.old_path) "histogram").1 = none →
      process_file tool rn rd c par f = none) := by
  refine ⟨fun h1 h2 => ?_, fun h => ?_, fun h => ?_⟩
  · simp [process_file, pyOr, pyTruthy, h1, h2]
  · simp [process_commit, h]
  · simp only [process_file]
    by_cases hp : pyTruthy (pyOr f.new_path f.old_path) = false
    · rw [if_pos hp]
    · rw [if_neg hp]
      rcases h with h | h
      · rw [h]
      · rcases (get_diff tool rd (some par) c.hash
            (pyOr f.new_path f.old_path) "myers").1 with _ | dm <;> rw [h]

/-- Witness for C3 on concrete inputs: a pathless file, a root commit, and
a histogram-side tool failure. -/
theorem skip_correctness_witness :
    process_file toolConst "fastapi" "/repo" commitA "p1" fileNone = none ∧
    process_commit toolConst "fastapi" commitRoot = [] ∧
    process_file toolFailHist "fastapi" "/repo" commitA "p1" fileA = none :=
  ⟨(skip_correctness toolConst "fastapi" "/repo" "p1" commitA fileNone).1 rfl rfl,
   (skip_correctness toolConst "fastapi" "/repo" "p1" commitRoot fileNone).2.1 rfl,
   (skip_correctness toolFailHist "fastapi" "/repo" "p1" commitA fileA).2.2
     (Or.inr (by decide))⟩

/-- C8: for every record emitted for a commit, the persisted
commit_message is the first 100 characters of the message followed by the
"..." truncation marker when the message exceeds 100 characters, and the
unmodified message otherwise. -/
theorem commit_message_truncation (tool : GitTool) (rn : String) (c : Commit)
    (row : Row) (h : row ∈ process_commit tool rn c) :
    (100 < c.msg.length → row.commit_message = c.msg.take 100 ++ "...") ∧
    (c.msg.length ≤ 100 → row.commit_message = c.msg) := by
  rcases mem_process_commit h with ⟨par, f, _, _, _, hpf⟩
  have hm := (process_file_eq_some hpf).2
  constructor
  · intro hlen; rw [hm, if_pos hlen]
  · intro hlen; rw [hm, if_neg (by omega)]

/-- A commit message of 150 characters. -/
def msg150 : String := String.mk (List.replicate 150 'm')

def commitB : Commit :=
  { hash := "c2", parents := ["p2"], msg := msg150,
    modified_files := [fileA], project_path := "/repo" }

def rowB : Row := (process_commit toolConst "fastapi" commitB).headD default

set_option maxRecDepth 100000 in
/-- Witness for C8 at a message of length 150 (Scenario E). -/
theorem commit_message_truncation_witness :
    rowB ∈ process_commit toolConst "fastapi" commitB ∧ 100 < msg150.length ∧
      rowB.commit_message = msg150.take 100 ++ "..." :=
  ⟨by decide, by decide,
   (commit_message_truncation toolConst "fastapi" commitB rowB (by decide)).1
     (by decide)⟩

/-! ### Claim theorems: aggregation and reporting -/

/-- C2 counterexample: with a zero file count, the overall discrepancy
rate of `summary.py` (line 27) and the agreement rate of
`simple_analysis.py` (line 129) do not evaluate to 0 — the unguarded
division raises, modelled by `none`. -/
theorem rate_zero_denominator_counterexample :
    summary_overall_rate [] = none ∧ analysis_agreement_rate [] = none ∧
      summary_overall_rate [] ≠ some 0 :=
  ⟨rfl, rfl, by decide⟩

/-- C2 amended: the guarded rate computations (`visualization.py` lines
43-44, 67, 97, 133-134 and the per-file-type rate of `summary.py` line 57)
yield 0 on a zero denominator, but the overall discrepancy rate of
`summary.py` line 27 and the agreement rate of `simple_analysis.py` line
129 divide without a guard and raise an error when the file count is
zero. -/
theorem rate_zero_denominator_amended (d : ℕ) (rows : List Row)
    (h : rows.length = 0) :
    viz_rate d 0 = 0 ∧ summary_filetype_rate d 0 = 0 ∧
    summary_overall_rate rows = none ∧ analysis_agreement_rate rows = none := by
  refine ⟨rfl, rfl, ?_, ?_⟩ <;>
    simp [summary_overall_rate, analysis_agreement_rate, h]

/-- Witness for C2 amended at `d = 7` and the empty dataset. -/
theorem rate_zero_denominator_amended_witness :
    viz_rate 7 0 = 0 ∧ summary_filetype_rate 7 0 = 0 ∧
    summary_overall_rate [] = none ∧ analysis_agreement_rate [] = none :=
  rate_zero_denominator_amended 7 [] rfl

/-- C6 counterexample: when the dataset file exists but holds zero
records, the reporting stage crashes (uncaught ZeroDivisionError at
`summary.py` line 27) instead of producing a message. -/
theorem empty_dataset_counterexample :
    display_summary (some []) = Except.error "ZeroDivisionError" := rfl

/-- C6 amended: when the dataset file is absent the stage prints a
user-visible message and returns normally; when the file parses to at
least one record the stage completes; but on an empty dataset it raises
an uncaught ZeroDivisionError. -/
theorem empty_dataset_amended (rows : List Row) (h : rows ≠ []) :
    display_summary none = Except.ok "Error: dataset.csv not found" ∧
    display_summary (some rows) = Except.ok "DIFF ALGORITHM ANALYSIS SUMMARY" ∧
    display_summary (some []) = Except.error "ZeroDivisionError" := by
  refine ⟨rfl, ?_, rfl⟩
  have hlen : ¬ rows.length = 0 := fun hl => h (List.length_eq_zero.mp hl)
  simp [display_summary, summary_overall_rate, hlen]

/-- Witness for C6 amended at a one-record dataset. -/
theorem empty_dataset_amended_witness :
    display_summary (some [(default : Row)]) =
      Except.ok "DIFF ALGORITHM ANALYSIS SUMMARY" :=
  (empty_dataset_amended [default] (by simp)).2.1

/-- C9: a file-type category appears in the chart's per-file-type panel
exactly when its record count is at least 10, while the console summary
iterates every category present in the dataset regardless of sample
size. -/
theorem chart_min_sample_filter (rows : List Row) (ft : String) :
    (ft ∈ chart_file_types rows ↔ 10 ≤ countType rows ft) ∧
    (ft ∈ summary_file_types rows ↔ ft ∈ rows.map (fun r => r.file_type)) := by
  constructor
  · simp only [chart_file_types, List.mem_filter, pdUnique_mem, decide_eq_true_eq]
    constructor
    · rintro ⟨_, h⟩; exact h
    · intro h
      exact ⟨countType_pos_iff.mp (le_trans (by norm_num) h), h⟩
  · simp only [summary_file_types, List.mem_mergeSort, pdUnique_mem]
